import Mathlib

/-!
Shallow embedding of the aquarium e-commerce backend's domain handlers
(`src/routes/orders.js`, `src/routes/cart.js`, `src/routes/products.js`,
`src/routes/fullMarineSetup.js`, `src/routes/accessories.js` and the auth
middleware), together with theorems checking the natural-language
specification against them.

JavaScript numbers are embedded as `Rat` (exact rational arithmetic; the
claims under study only add, multiply and divide). A JSON field that may
be absent is an `Option`. A mongoose `findById`/`findOne` result is passed
in as an `Option` of the document. Each route handler becomes a pure
function from its inputs to a response value; a thrown-and-caught
JavaScript `TypeError` (e.g. dereferencing `undefined`) becomes the 500
response the `catch` block produces, and the document state it would have
persisted is returned alongside the response where a claim needs it.
-/

namespace Aquarium

/-- An HTTP response as the handlers produce it: either a success payload
with its status code, or an error JSON `{ message }` with its status. -/
inductive Resp (α : Type) where
  | success (status : Nat) (payload : α)
  | failure (status : Nat) (message : String)
  deriving DecidableEq, Repr

/-- The authenticated principal `req.user` that `protect` attaches
(from `User.findById`, `src/middleware/auth.js`): id, display name and
the admin flag. -/
structure User where
  _id : Nat
  name : String
  isAdmin : Bool
  deriving DecidableEq, Repr

/-! ## Orders (`src/routes/orders.js`) -/

/-- One entry of `orderItems` in the `POST /api/orders` body; the handler
reads only `price`, `qty` and (for logging) `name`, each possibly absent. -/
structure OrderItem where
  name : Option String
  price : Option Rat
  qty : Option Rat
  deriving DecidableEq, Repr

/-- The `paymentResult` subdocument written by `PUT /api/orders/:id/pay`:
`{ id, status, update_time, email_address }`. -/
structure PaymentResult where
  id : Option String
  status : Option String
  update_time : Option String
  email_address : Option String
  deriving DecidableEq, Repr

/-- An order document with the fields the route handlers read and write.
`src/models/Order.js` is not part of the sources at hand; the fields and
the initial values used by `createOrder` below are the ones the handlers
in `src/routes/orders.js` manipulate, with initial `isPaid=false`,
`isDelivered=false`, `status="pending"` as the spec's §4.3 records. -/
structure Order where
  orderItems : Option (List OrderItem)
  user : Nat
  shippingAddress : Option String
  paymentMethod : Option String
  itemsPrice : Rat
  taxPrice : Rat
  shippingPrice : Rat
  totalPrice : Rat
  isPaid : Bool
  paidAt : Option Nat
  paymentResult : Option PaymentResult
  isDelivered : Bool
  deliveredAt : Option Nat
  status : String
  deriving DecidableEq, Repr

/-- The request body of `POST /api/orders` (fields destructured at the top
of the handler, each possibly absent). -/
structure CreateOrderBody where
  orderItems : Option (List OrderItem)
  shippingAddress : Option String
  paymentMethod : Option String
  itemsPrice : Option Rat
  taxPrice : Option Rat
  shippingPrice : Option Rat
  totalPrice : Option Rat
  deriving DecidableEq, Repr

/-- JavaScript truth test on a possibly-absent number: `undefined` and `0`
are falsy (`!itemsPrice` in the handler; `itemsPrice === 0` is subsumed). -/
def jsNumFalsy : Option Rat → Bool
  | none => true
  | some x => x == 0

/-- `orderItems.reduce((total, item) => total + (item.price || 0) * (item.qty || 0), 0)`.
`(item.price || 0)` reads a missing price as 0, likewise `qty`. -/
def itemsReduce (items : List OrderItem) : Rat :=
  items.foldl (fun total item => total + (item.price.getD 0) * (item.qty.getD 0)) 0

/-- Outcome of `POST /api/orders`: 201 with the saved order, 400
`"No order items"`, or the catch-all 500 (reached when the handler throws,
e.g. `orderItems.reduce` on an `undefined` `orderItems`). -/
inductive CreateOrderResult where
  | created (order : Order)
  | badRequest (message : String)
  | serverError
  deriving DecidableEq, Repr

/-- Price derivation and order construction shared by the paths of the
handler that reach `new Order(...)`: `calculatedItemsPrice` falls back to
the reduce over `orderItems` when `itemsPrice` is falsy, and
`calculatedTotalPrice` falls back to `calculatedItemsPrice + (shippingPrice || 0)`
when `totalPrice` is falsy; `taxPrice` and `shippingPrice` default to 0. -/
def buildOrder (userId : Nat) (b : CreateOrderBody) (items : List OrderItem) : Order :=
  let calculatedItemsPrice : Rat :=
    if jsNumFalsy b.itemsPrice then itemsReduce items else b.itemsPrice.getD 0
  let calculatedTotalPrice : Rat :=
    if jsNumFalsy b.totalPrice then calculatedItemsPrice + b.shippingPrice.getD 0
    else b.totalPrice.getD 0
  { orderItems := b.orderItems
    user := userId
    shippingAddress := b.shippingAddress
    paymentMethod := b.paymentMethod
    itemsPrice := calculatedItemsPrice
    taxPrice := b.taxPrice.getD 0
    shippingPrice := b.shippingPrice.getD 0
    totalPrice := calculatedTotalPrice
    isPaid := false
    paidAt := none
    paymentResult := none
    isDelivered := false
    deliveredAt := none
    status := "pending" }

/-- `POST /api/orders` handler (`src/routes/orders.js` lines 9–61).
`if (orderItems && orderItems.length === 0)` rejects only a present empty
array; with `orderItems` absent and a falsy `itemsPrice` the handler
reaches `orderItems.reduce` on `undefined`, throws, and the catch block
answers 500. -/
def createOrder (userId : Nat) (b : CreateOrderBody) : CreateOrderResult :=
  match b.orderItems with
  | some items =>
      if items.length = 0 then .badRequest "No order items"
      else .created (buildOrder userId b items)
  | none =>
      if jsNumFalsy b.itemsPrice then .serverError
      else .created (buildOrder userId b [])

/-- Body of `PUT /api/orders/:id/pay`: the handler reads `req.body.id`,
`req.body.status`, `req.body.update_time` and `req.body.payer.email_address`;
`payer` is an object with an `email_address` field, and `extra` stands for
any further field a caller's payload may carry, which the handler never
reads. -/
structure Payer where
  email_address : Option String
  deriving DecidableEq, Repr

structure PayBody where
  id : Option String
  status : Option String
  update_time : Option String
  payer : Option Payer
  extra : Option String
  deriving DecidableEq, Repr

/-- `PUT /api/orders/:id/pay` handler (`src/routes/orders.js` lines
127–150). With no `payer` on the body, `req.body.payer.email_address`
throws before `order.save()`, so the catch block answers 500 and the
stored order is unchanged; the response carries the order as saved. -/
def payOrder (order? : Option Order) (b : PayBody) (now : Nat) : Resp Order :=
  match order? with
  | none => .failure 404 "Order not found"
  | some o =>
      match b.payer with
      | none => .failure 500 "Cannot read properties of undefined"
      | some payer =>
          .success 200
            { o with
              isPaid := true
              paidAt := some now
              paymentResult := some
                { id := b.id
                  status := b.status
                  update_time := b.update_time
                  email_address := payer.email_address } }

/-- `PUT /api/orders/:id/status` handler body (`src/routes/orders.js`
lines 178–204): sets `status`, then synchronises `isDelivered`/`deliveredAt`
for `delivered`, clears them for `pending` or `confirmed`, and leaves them
untouched otherwise. -/
def statusUpdatedOrder (o : Order) (status : String) (now : Nat) : Order :=
  let o := { o with status := status }
  if status = "delivered" then
    { o with isDelivered := true, deliveredAt := some now }
  else if status = "pending" ∨ status = "confirmed" then
    { o with isDelivered := false, deliveredAt := none }
  else o

def setOrderStatus (order? : Option Order) (status : String) (now : Nat) : Resp Order :=
  match order? with
  | none => .failure 404 "Order not found"
  | some o => .success 200 (statusUpdatedOrder o status now)

/-- `PUT /api/orders/:id/deliver` handler body (`src/routes/orders.js`
lines 155–173). -/
def deliverOrder (order? : Option Order) (now : Nat) : Resp Order :=
  match order? with
  | none => .failure 404 "Order not found"
  | some o =>
      .success 200 { o with isDelivered := true, deliveredAt := some now, status := "delivered" }

/-! ## Cart (`src/routes/cart.js`) -/

/-- A cart line: product reference plus the name/price/image snapshot
taken at add time, and the quantity. -/
structure CartItem where
  product : Nat
  name : Option String
  price : Option Rat
  image : Option String
  quantity : Rat
  deriving DecidableEq, Repr

/-- A cart document: its owning user and its ordered line items. -/
structure Cart where
  user : Nat
  items : List CartItem
  deriving DecidableEq, Repr

/-- The body of `POST /api/cart`; `quantity = 1` is the destructuring
default when absent. -/
structure AddItemBody where
  productId : Nat
  name : Option String
  price : Option Rat
  image : Option String
  quantity : Option Rat
  deriving DecidableEq, Repr

/-- The fresh line `{ product, name, price, image, quantity }` the handler
pushes. -/
def newCartItem (b : AddItemBody) : CartItem :=
  { product := b.productId
    name := b.name
    price := b.price
    image := b.image
    quantity := b.quantity.getD 1 }

/-- `cart.items.find(item => item.product.toString() === productId)` picks
the first matching line and `existingItem.quantity += quantity` mutates
only it; this helper rewrites exactly that first line. -/
def bumpFirst (pid : Nat) (qty : Rat) : List CartItem → List CartItem
  | [] => []
  | item :: rest =>
      if item.product = pid then { item with quantity := item.quantity + qty } :: rest
      else item :: bumpFirst pid qty rest

/-- `POST /api/cart` handler (`src/routes/cart.js` lines 25–70): creates
the cart when absent, increments the existing line's quantity when the
product is already there, appends a new line otherwise. -/
def addToCart (cart? : Option Cart) (userId : Nat) (b : AddItemBody) : Cart :=
  match cart? with
  | none => { user := userId, items := [newCartItem b] }
  | some cart =>
      if (cart.items.find? (fun item => item.product == b.productId)).isSome then
        { cart with items := bumpFirst b.productId (b.quantity.getD 1) cart.items }
      else
        { cart with items := cart.items ++ [newCartItem b] }

/-- `DELETE /api/cart/:productId` handler (`src/routes/cart.js` lines
112–131): 404 when the user has no cart, otherwise keep every line whose
product differs from `:productId` and answer 200 with the saved cart. -/
def removeFromCart (cart? : Option Cart) (productId : Nat) : Resp Cart :=
  match cart? with
  | none => .failure 404 "Cart not found"
  | some cart =>
      .success 200 { cart with items := cart.items.filter (fun item => item.product ≠ productId) }

/-! ## Reviews (`src/routes/products.js` lines 339–378 and
`src/routes/fullMarineSetup.js` lines 145–184 — the two handler bodies are
textually identical) -/

/-- A review subdocument `{ name, rating, comment, user }`. -/
structure Review where
  name : String
  rating : Rat
  comment : Option String
  user : Nat
  deriving DecidableEq, Repr

/-- The review-bearing part of a catalog item (Product / FullMarineSetup):
the reviews list and the derived `rating` and `numReviews`. -/
structure CatalogItem where
  reviews : List Review
  numReviews : Nat
  rating : Rat
  deriving DecidableEq, Repr

/-- Outcome of a review POST: 201 `"Review added"` with the item as saved,
400 `"Product already reviewed"`, 404 `"Product not found"`, or the
catch-all 500 when the handler throws. -/
inductive ReviewResult where
  | added (item : CatalogItem)
  | alreadyReviewed
  | notFound
  | serverError
  deriving DecidableEq, Repr

/-- `reviews.reduce((acc, item) => item.rating + acc, 0)`. -/
def ratingReduce (reviews : List Review) : Rat :=
  reviews.foldl (fun acc r => r.rating + acc) 0

/-- The success path of the review handlers: push
`{ name, rating, comment, user }`, set `numReviews` to the new count and
`rating` to the reduce over all ratings divided by the count. -/
def appendReview (item : CatalogItem) (u : User) (rating : Rat)
    (comment : Option String) : CatalogItem :=
  let reviews := item.reviews ++
    [{ name := u.name, rating := rating, comment := comment, user := u._id }]
  { reviews := reviews
    numReviews := reviews.length
    rating := ratingReduce reviews / (reviews.length : Rat) }

/-- Shared body of the two review handlers, parameterised by `req.user`.
When the requester is absent (`user? = none`, which is how the
`products.js` route runs, being registered without `protect`), the handler
dereferences `req.user` — in the `find` callback when the item already has
reviews, or at `req.user.name` when it has none — throws, and the catch
block answers 500 before any review is pushed or saved. -/
def reviewHandlerBody (item? : Option CatalogItem) (user? : Option User)
    (rating : Rat) (comment : Option String) : ReviewResult :=
  match item? with
  | none => .notFound
  | some item =>
      match user? with
      | none => .serverError
      | some u =>
          if (item.reviews.find? (fun r => r.user == u._id)).isSome then
            .alreadyReviewed
          else
            .added (appendReview item u rating comment)

/-- The stored item after the endpoint ran: only the `.added` path calls
`product.save()`; every other path leaves the store as it was. -/
def reviewStoredAfter (item? : Option CatalogItem) (user? : Option User)
    (rating : Rat) (comment : Option String) : Option CatalogItem :=
  match reviewHandlerBody item? user? rating comment with
  | .added item => some item
  | _ => item?

/-- `POST /api/full-marine-setup/:id/reviews` is registered as
`router.post('/:id/reviews', protect, ...)`: the handler always runs with
the authenticated principal attached. -/
def fullMarineSetupReviewEndpoint (item? : Option CatalogItem) (principal : User)
    (rating : Rat) (comment : Option String) : ReviewResult :=
  reviewHandlerBody item? (some principal) rating comment

/-- `POST /api/products/:id/reviews` is registered as
`router.post('/:id/reviews', async (req, res) ...)` with no `protect`
middleware, so no step of the chain ever sets `req.user`. -/
def productReviewEndpoint (item? : Option CatalogItem)
    (rating : Rat) (comment : Option String) : ReviewResult :=
  reviewHandlerBody item? none rating comment

/-- Item store after a `POST /api/products/:id/reviews` request. -/
def productReviewStoredAfter (item? : Option CatalogItem)
    (rating : Rat) (comment : Option String) : Option CatalogItem :=
  reviewStoredAfter item? none rating comment

/-- Folding successful review submissions (as `fullMarineSetup` runs them)
over an item: `none` as soon as one submission does not come back
`.added`. -/
def addReviewsSeq (item : CatalogItem) : List (User × Rat) → Option CatalogItem
  | [] => some item
  | (u, r) :: rest =>
      match reviewHandlerBody (some item) (some u) r none with
      | .added item' => addReviewsSeq item' rest
      | _ => none

/-! ## Auth gate (`src/middleware/auth.js`) and admin-gated routes -/

/-- Result of a middleware step: pass control on, or answer immediately. -/
inductive GateResult where
  | next
  | reject (status : Nat) (message : String)
  deriving DecidableEq, Repr

/-- The `admin` middleware (`src/middleware/auth.js` lines 46–52):
`if (req.user && req.user.isAdmin) next(); else res.status(401)...`. -/
def adminGate (user? : Option User) : GateResult :=
  match user? with
  | some u => if u.isAdmin then .next else .reject 401 "Not authorized as an admin"
  | none => .reject 401 "Not authorized as an admin"

/-- Runs a handler behind the `admin` middleware; the pair's boolean
records whether the underlying handler executed. -/
def adminGated {α : Type} (principal : User) (handler : Unit → Resp α) : Resp α × Bool :=
  match adminGate (some principal) with
  | .next => (handler (), true)
  | .reject s m => (.failure s m, false)

/-- `PUT /api/orders/:id/deliver` route: `protect, admin, handler`. -/
def deliverOrderEndpoint (principal : User) (order? : Option Order) (now : Nat) :
    Resp Order × Bool :=
  adminGated principal (fun _ => deliverOrder order? now)

/-- `PUT /api/orders/:id/status` route: `protect, admin, handler`. -/
def setOrderStatusEndpoint (principal : User) (order? : Option Order)
    (status : String) (now : Nat) : Resp Order × Bool :=
  adminGated principal (fun _ => setOrderStatus order? status now)

/-- `GET /api/orders` route: `protect, admin, handler` returning every
order newest first. -/
def getAllOrdersEndpoint (principal : User) (orders : List Order) :
    Resp (List Order) × Bool :=
  adminGated principal (fun _ => .success 200 orders)

/-- `DELETE /api/products/:id` route (`src/routes/products.js` line 229):
`protect, admin, handler`; the handler deletes and answers
`"Product removed"` or 404. -/
def deleteProductEndpoint (principal : User) (found : Bool) : Resp String × Bool :=
  adminGated principal (fun _ =>
    if found then .success 200 "Product removed" else .failure 404 "Product not found")

/-- `DELETE /api/full-marine-setup/:id` route (`src/routes/fullMarineSetup.js`
line 59): `protect, admin, handler`. -/
def deleteFullMarineSetupEndpoint (principal : User) (found : Bool) : Resp String × Bool :=
  adminGated principal (fun _ =>
    if found then .success 200 "Product removed" else .failure 404 "Product not found")

/-- `DELETE /api/categories/:id` route (`src/routes/categories.js`,
carried in the sources after the contact routes): `protect, admin,
handler`. -/
def deleteCategoryEndpoint (principal : User) (found : Bool) : Resp String × Bool :=
  adminGated principal (fun _ =>
    if found then .success 200 "Category removed" else .failure 404 "Category not found")

/-- `DELETE /api/accessories/:id` route (`src/routes/accessories.js` line
118) is registered as `router.delete('/:id', async (req, res) ...)` with
no `protect` and no `admin` middleware: the handler runs — and deletes —
whatever principal (if any) the request carries. The boolean again records
that the deletion executed. -/
def deleteAccessoryEndpoint (_user? : Option User) (found : Bool) : Resp String × Bool :=
  if found then (.success 200 "Accessory removed", true)
  else (.failure 404 "Accessory not found", true)

/-- `POST /api/accessories` route (`src/routes/accessories.js` line 135)
is registered with only the upload middleware — no `protect`, no `admin`:
the accessory is created for any requester. -/
def createAccessoryEndpoint (_user? : Option User) (name : Option String)
    (price : Option Rat) : Resp (Option String × Option Rat) × Bool :=
  ((.success 201 (name, price)), true)

/-! ## Helper lemmas and concrete fixtures -/

theorem foldl_add_map {α : Type} (f : α → Rat) (l : List α) (a : Rat) :
    l.foldl (fun t x => t + f x) a = a + (l.map f).sum := by
  induction l generalizing a with
  | nil => simp
  | cons x xs ih => simp [ih, add_assoc]

theorem foldl_add_map_left {α : Type} (f : α → Rat) (l : List α) (a : Rat) :
    l.foldl (fun acc x => f x + acc) a = a + (l.map f).sum := by
  induction l generalizing a with
  | nil => simp
  | cons x xs ih =>
      simp only [List.foldl_cons, ih, List.map_cons, List.sum_cons]
      ring

theorem itemsReduce_eq_sum (items : List OrderItem) :
    itemsReduce items = (items.map fun item => item.price.getD 0 * item.qty.getD 0).sum := by
  unfold itemsReduce
  rw [foldl_add_map]
  simp

theorem ratingReduce_eq_sum (reviews : List Review) :
    ratingReduce reviews = (reviews.map Review.rating).sum := by
  unfold ratingReduce
  rw [foldl_add_map_left]
  simp

/-- A concrete stored order used to instantiate theorems. -/
def baseOrder : Order :=
  { orderItems := some [{ name := some "tank", price := some 10, qty := some 2 }]
    user := 1
    shippingAddress := some "addr"
    paymentMethod := some "PayPal"
    itemsPrice := 20
    taxPrice := 0
    shippingPrice := 0
    totalPrice := 20
    isPaid := false
    paidAt := none
    paymentResult := none
    isDelivered := false
    deliveredAt := none
    status := "pending" }

/-- The spec's worked example: two lines `{price:10, qty:2}` and
`{price:5, qty:1}`, `shippingPrice = 5`, no caller-supplied prices. -/
def specOrderBody : CreateOrderBody :=
  { orderItems := some
      [{ name := some "a", price := some 10, qty := some 2 },
       { name := some "b", price := some 5, qty := some 1 }]
    shippingAddress := none
    paymentMethod := none
    itemsPrice := none
    taxPrice := none
    shippingPrice := some 5
    totalPrice := none }

/-! ## C1 — derived itemsPrice and totalPrice -/

/-- C1: whenever `createOrder` succeeds, a caller-absent-or-zero
`itemsPrice` comes out as `Σ line.price × line.qty` over `orderItems`
(missing `price`/`qty` counting as 0), and a caller-absent-or-zero
`totalPrice` comes out as that `itemsPrice` plus `shippingPrice`
(defaulting to 0), with `taxPrice` playing no part in the derived total. -/
theorem createOrder_derives_prices (userId : Nat) (b : CreateOrderBody) (o : Order)
    (h : createOrder userId b = .created o) :
    (jsNumFalsy b.itemsPrice = true →
      o.itemsPrice =
        ((b.orderItems.getD []).map fun item => item.price.getD 0 * item.qty.getD 0).sum) ∧
    (jsNumFalsy b.totalPrice = true →
      o.totalPrice = o.itemsPrice + b.shippingPrice.getD 0) := by
  unfold createOrder at h
  cases hb : b.orderItems with
  | some items =>
      rw [hb] at h
      by_cases hlen : items.length = 0
      · simp [hlen] at h
      · simp only [hlen, if_false] at h
        cases h
        constructor <;> intro hf <;>
          simp [buildOrder, hb, hf, itemsReduce_eq_sum]
  | none =>
      rw [hb] at h
      by_cases hf1 : jsNumFalsy b.itemsPrice
      · simp [hf1] at h
      · simp only [hf1, Bool.false_eq_true, if_false] at h
        cases h
        constructor
        · intro hf; exact absurd hf hf1
        · intro hf; simp [buildOrder, hf]

/-- Witness for C1 at the spec's worked example: derived
`itemsPrice = 25` and `totalPrice = 30`. -/
theorem createOrder_derives_prices_witness :
    (buildOrder 1 specOrderBody ((specOrderBody.orderItems).getD [])).itemsPrice =
      ((specOrderBody.orderItems.getD []).map
        fun item => item.price.getD 0 * item.qty.getD 0).sum ∧
    (buildOrder 1 specOrderBody ((specOrderBody.orderItems).getD [])).totalPrice =
      (buildOrder 1 specOrderBody ((specOrderBody.orderItems).getD [])).itemsPrice +
        specOrderBody.shippingPrice.getD 0 ∧
    (buildOrder 1 specOrderBody ((specOrderBody.orderItems).getD [])).itemsPrice = 25 ∧
    (buildOrder 1 specOrderBody ((specOrderBody.orderItems).getD [])).totalPrice = 30 := by
  have h := createOrder_derives_prices 1 specOrderBody
    (buildOrder 1 specOrderBody ((specOrderBody.orderItems).getD [])) (by rfl)
  have h1 := h.1 rfl
  have h2 := h.2 rfl
  refine ⟨h1, h2, ?_, ?_⟩
  · rw [h1]; norm_num [specOrderBody]
  · rw [h2, h1]; norm_num [specOrderBody]

/-! ## C4 — the EmptyOrder check -/

/-- C4: `createOrder` answers 400 `"No order items"` exactly when
`orderItems` is present and empty, in which case no order is created;
an absent `orderItems` is not rejected by this check. -/
theorem createOrder_emptyOrder_iff (userId : Nat) (b : CreateOrderBody) :
    (∀ msg, createOrder userId b = .badRequest msg ↔
      (msg = "No order items" ∧ b.orderItems = some [])) ∧
    (b.orderItems = some [] → ∀ o, createOrder userId b ≠ .created o) := by
  unfold createOrder
  cases hb : b.orderItems with
  | some items =>
      constructor
      · intro msg
        by_cases hlen : items.length = 0
        · rcases List.length_eq_zero.mp hlen with rfl
          simp [eq_comm]
        · have : items ≠ [] := fun hnil => hlen (by simp [hnil])
          simp [hlen, this]
      · rintro ⟨rfl⟩
        intro o
        simp
  | none =>
      constructor
      · intro msg
        constructor
        · intro hmsg
          by_cases hf : jsNumFalsy b.itemsPrice <;> simp [hf] at hmsg
        · rintro ⟨rfl, hnone⟩
          cases hnone
      · intro hsome
        cases hsome

/-- Witness for C4: the empty array is rejected with no order created,
and a body with no `orderItems` field at all is not rejected by this
check. -/
theorem createOrder_emptyOrder_witness :
    createOrder 1
      { orderItems := some [], shippingAddress := none, paymentMethod := none,
        itemsPrice := none, taxPrice := none, shippingPrice := none, totalPrice := none }
      = .badRequest "No order items" ∧
    ¬ createOrder 1
      { orderItems := none, shippingAddress := none, paymentMethod := none,
        itemsPrice := some 7, taxPrice := none, shippingPrice := none, totalPrice := some 7 }
      = .badRequest "No order items" := by
  constructor
  · exact ((createOrder_emptyOrder_iff 1 _).1 "No order items").mpr ⟨rfl, rfl⟩
  · intro hc
    have h := ((createOrder_emptyOrder_iff 1 _).1 "No order items").mp hc
    cases h.2

/-! ## C8 — setStatus and the delivery flags -/

/-- C8: `setStatus` on an existing order sets `status`; `"delivered"`
additionally sets `isDelivered = true` and a non-null `deliveredAt`,
`"pending"`/`"confirmed"` clear both, and any other status value leaves
the two delivery fields exactly as they were. -/
theorem setOrderStatus_spec (o : Order) (status : String) (now : Nat) :
    setOrderStatus (some o) status now = .success 200 (statusUpdatedOrder o status now) ∧
    (statusUpdatedOrder o status now).status = status ∧
    (status = "delivered" →
      (statusUpdatedOrder o status now).isDelivered = true ∧
      (statusUpdatedOrder o status now).deliveredAt = some now) ∧
    (status = "pending" ∨ status = "confirmed" →
      (statusUpdatedOrder o status now).isDelivered = false ∧
      (statusUpdatedOrder o status now).deliveredAt = none) ∧
    (status ≠ "delivered" → status ≠ "pending" → status ≠ "confirmed" →
      (statusUpdatedOrder o status now).isDelivered = o.isDelivered ∧
      (statusUpdatedOrder o status now).deliveredAt = o.deliveredAt) := by
  refine ⟨rfl, ?_, ?_, ?_, ?_⟩
  · unfold statusUpdatedOrder
    split_ifs <;> rfl
  · intro hd
    unfold statusUpdatedOrder
    split_ifs <;> simp_all
  · intro hpc
    unfold statusUpdatedOrder
    split_ifs <;> simp_all
  · intro h3 h4 h5
    unfold statusUpdatedOrder
    split_ifs <;> simp_all

/-- Witness for C8: `"delivered"` sets the flags on a concrete order,
a following `"pending"` clears them, and a following `"shipped"` leaves
them as `"delivered"` set them. -/
theorem setOrderStatus_spec_witness :
    (statusUpdatedOrder baseOrder "delivered" 5).isDelivered = true ∧
    (statusUpdatedOrder baseOrder "delivered" 5).deliveredAt = some 5 ∧
    (statusUpdatedOrder (statusUpdatedOrder baseOrder "delivered" 5) "pending" 6).isDelivered
      = false ∧
    (statusUpdatedOrder (statusUpdatedOrder baseOrder "delivered" 5) "pending" 6).deliveredAt
      = none ∧
    (statusUpdatedOrder (statusUpdatedOrder baseOrder "delivered" 5) "shipped" 7).isDelivered
      = true ∧
    (statusUpdatedOrder (statusUpdatedOrder baseOrder "delivered" 5) "shipped" 7).deliveredAt
      = some 5 := by
  have h1 := setOrderStatus_spec baseOrder "delivered" 5
  have h2 := setOrderStatus_spec (statusUpdatedOrder baseOrder "delivered" 5) "pending" 6
  have h3 := setOrderStatus_spec (statusUpdatedOrder baseOrder "delivered" 5) "shipped" 7
  obtain ⟨hd1, hd2⟩ := h1.2.2.1 rfl
  obtain ⟨hp1, hp2⟩ := h2.2.2.2.1 (Or.inl rfl)
  obtain ⟨hs1, hs2⟩ := h3.2.2.2.2 (by decide) (by decide) (by decide)
  exact ⟨hd1, hd2, hp1, hp2, hs1.trans hd1, hs2.trans hd2⟩

/-! ## C9 — markPaid -/

/-- A pay body with `payer` present and an unread extra field. -/
def payBodyFull : PayBody :=
  { id := some "pay1", status := some "COMPLETED", update_time := some "t0",
    payer := some { email_address := some "x@y.z" }, extra := some "dropped" }

/-- A pay body with no `payer` field. -/
def payBodyNoPayer : PayBody :=
  { id := some "pay1", status := some "COMPLETED", update_time := some "t0",
    payer := none, extra := none }

/-- C9 counterexample: on an existing order, a payload with no `payer`
does not come back paid — `req.body.payer.email_address` throws and the
handler answers 500 — and a payload field outside
`{id, status, update_time, payer.email_address}` is not stored: two
payloads differing only in that field produce identical outcomes, so the
payload is not stored verbatim. -/
theorem payOrder_claim_counterexample :
    payOrder (some baseOrder) payBodyNoPayer 5
      = .failure 500 "Cannot read properties of undefined" ∧
    payOrder (some baseOrder) payBodyFull 5
      = payOrder (some baseOrder) { payBodyFull with extra := none } 5 := by
  exact ⟨rfl, rfl⟩

/-- C9 amended: `markPaid` fails 404 when the order does not exist; on an
existing order and a payload whose `payer` field is present it sets
`isPaid = true`, `paidAt = now`, and stores as `paymentResult` the
projection `{ id, status, update_time, email_address := payer.email_address }`
of the payload; on an existing order and a payload with no `payer` it
throws and answers 500 without marking the order paid. -/
theorem payOrder_spec (order? : Option Order) (b : PayBody) (now : Nat) :
    (order? = none → payOrder order? b now = .failure 404 "Order not found") ∧
    (∀ o, order? = some o → ∀ p, b.payer = some p →
      payOrder order? b now = .success 200
        { o with
          isPaid := true
          paidAt := some now
          paymentResult := some
            { id := b.id, status := b.status,
              update_time := b.update_time, email_address := p.email_address } }) ∧
    (∀ o, order? = some o → b.payer = none →
      payOrder order? b now = .failure 500 "Cannot read properties of undefined") := by
  refine ⟨?_, ?_, ?_⟩
  · rintro rfl; rfl
  · rintro o rfl p hp; simp [payOrder, hp]
  · rintro o rfl hp; simp [payOrder, hp]

/-- Witness for the amended C9 at concrete inputs. -/
theorem payOrder_spec_witness :
    payOrder none payBodyNoPayer 5 = .failure 404 "Order not found" ∧
    payOrder (some baseOrder) payBodyFull 5
      = .success 200
        { baseOrder with
          isPaid := true
          paidAt := some 5
          paymentResult := some
            { id := payBodyFull.id, status := payBodyFull.status,
              update_time := payBodyFull.update_time, email_address := some "x@y.z" } } ∧
    payOrder (some baseOrder) payBodyNoPayer 5
      = .failure 500 "Cannot read properties of undefined" := by
  have h1 := (payOrder_spec none payBodyNoPayer 5).1 rfl
  have h2 := (payOrder_spec (some baseOrder) payBodyFull 5).2.1 baseOrder rfl
    { email_address := some "x@y.z" } rfl
  have h3 := (payOrder_spec (some baseOrder) payBodyNoPayer 5).2.2 baseOrder rfl rfl
  exact ⟨h1, h2, h3⟩

/-! ## C3 — addItem keeps one line per product -/

/-- `bumpFirst` only rewrites a quantity, so the product column is
untouched. -/
theorem bumpFirst_map_product (pid : Nat) (qty : Rat) (l : List CartItem) :
    (bumpFirst pid qty l).map CartItem.product = l.map CartItem.product := by
  induction l with
  | nil => rfl
  | cons item rest ih =>
      unfold bumpFirst
      split_ifs <;> simp [ih]

/-- `bumpFirst` on a list whose first match is `line` bumps exactly that
line and leaves everything else alone. -/
theorem bumpFirst_split (pid : Nat) (qty : Rat) (pre post : List CartItem)
    (line : CartItem) (hline : line.product = pid)
    (hpre : ∀ item ∈ pre, item.product ≠ pid) :
    bumpFirst pid qty (pre ++ line :: post)
      = pre ++ { line with quantity := line.quantity + qty } :: post := by
  induction pre with
  | nil => simp [bumpFirst, hline]
  | cons item rest ih =>
      have hitem : item.product ≠ pid := hpre item (by simp)
      simp only [List.cons_append, bumpFirst, if_neg hitem, List.append_eq]
      rw [ih (fun x hx => hpre x (by simp [hx]))]

/-- C3: `addItem` creates a singleton cart when none exists, bumps the
quantity of the existing line (leaving its snapshot fields and every
other line unchanged) when the product is already present, appends a new
line otherwise — and therefore keeps the at-most-one-line-per-product
invariant; in particular adding the same product twice yields one line
with the summed quantity. -/
theorem addToCart_spec (cart? : Option Cart) (userId : Nat) (b : AddItemBody) :
    ((∀ c, cart? = some c → (c.items.map CartItem.product).Nodup) →
      ((addToCart cart? userId b).items.map CartItem.product).Nodup) ∧
    (cart? = none → (addToCart cart? userId b).items = [newCartItem b]) ∧
    (∀ c, cart? = some c → (∀ item ∈ c.items, item.product ≠ b.productId) →
      (addToCart cart? userId b).items = c.items ++ [newCartItem b]) ∧
    (∀ c pre line post, cart? = some c → c.items = pre ++ line :: post →
      line.product = b.productId → (∀ item ∈ pre, item.product ≠ b.productId) →
      (addToCart cart? userId b).items
        = pre ++ { line with quantity := line.quantity + b.quantity.getD 1 } :: post) ∧
    (∀ b2 : AddItemBody, b2.productId = b.productId →
      (addToCart (some (addToCart none userId b)) userId b2).items
        = [{ newCartItem b with quantity := b.quantity.getD 1 + b2.quantity.getD 1 }]) := by
  refine ⟨?_, ?_, ?_, ?_, ?_⟩
  · intro hinv
    cases cart? with
    | none => simp [addToCart]
    | some c =>
        have hc := hinv c rfl
        by_cases hfind : (c.items.find? (fun item => item.product == b.productId)).isSome
        · have hred : addToCart (some c) userId b
              = { c with items := bumpFirst b.productId (b.quantity.getD 1) c.items } := by
            simp [addToCart, hfind]
          rw [hred]
          show ((bumpFirst b.productId (b.quantity.getD 1) c.items).map CartItem.product).Nodup
          rw [bumpFirst_map_product]
          exact hc
        · have hred : addToCart (some c) userId b
              = { c with items := c.items ++ [newCartItem b] } := by
            simp [addToCart, hfind]
          rw [hred]
          show ((c.items ++ [newCartItem b]).map CartItem.product).Nodup
          have habsent : b.productId ∉ c.items.map CartItem.product := by
            intro hmem
            rcases List.mem_map.mp hmem with ⟨item, hitem, hprod⟩
            exact hfind (List.find?_isSome.mpr ⟨item, hitem, by simp [hprod]⟩)
          simp only [List.map_append, List.map_cons, List.map_nil]
          exact List.Nodup.append hc (by simp [newCartItem])
            (by simpa [newCartItem, List.disjoint_right] using habsent)
  · rintro rfl; rfl
  · rintro c rfl habsent
    have hfind : c.items.find? (fun item => item.product == b.productId) = none := by
      rw [List.find?_eq_none]
      intro item hitem
      simp [habsent item hitem]
    simp [addToCart, hfind]
  · rintro c pre line post rfl hsplit hline hpre
    have hfind : (c.items.find? (fun item => item.product == b.productId)).isSome := by
      refine List.find?_isSome.mpr ⟨line, ?_, by simp [hline]⟩
      rw [hsplit]; simp
    simp only [addToCart, hfind, if_true]
    rw [hsplit, bumpFirst_split _ _ _ _ _ hline hpre]
  · intro b2 hb2
    simp [addToCart, newCartItem, List.find?, hb2, bumpFirst]

/-- A concrete cart with two lines, products 1 and 2. -/
def demoCart : Cart :=
  { user := 1
    items :=
      [{ product := 1, name := some "filter", price := some 8, image := none, quantity := 1 },
       { product := 2, name := some "heater", price := some 12, image := none, quantity := 2 }] }

/-- The add body used by the C3 witness: product 2 again, quantity 3. -/
def demoAddBody : AddItemBody :=
  { productId := 2, name := some "stale-name", price := some 99, image := none,
    quantity := some 3 }

/-- Witness for C3 on a concrete cart: bumping product 2 keeps the
product column duplicate-free, rewrites only that line's quantity, and a
double add from scratch yields a single summed line. -/
theorem addToCart_spec_witness :
    ((addToCart (some demoCart) 1 demoAddBody).items.map CartItem.product).Nodup ∧
    (addToCart (some demoCart) 1 demoAddBody).items
      = [demoCart.items.get ⟨0, by decide⟩,
         { demoCart.items.get ⟨1, by decide⟩ with quantity := 2 + 3 }] ∧
    (addToCart (some (addToCart none 1 demoAddBody)) 1 demoAddBody).items
      = [{ newCartItem demoAddBody with quantity := 3 + 3 }] := by
  have h := addToCart_spec (some demoCart) 1 demoAddBody
  refine ⟨h.1 (by intro c hc; cases hc; decide), ?_, h.2.2.2.2 demoAddBody rfl⟩
  have h4 := h.2.2.2.1 demoCart
    [demoCart.items.get ⟨0, by decide⟩] (demoCart.items.get ⟨1, by decide⟩) []
    rfl (by decide) (by decide) (by decide)
  simpa using h4

/-! ## C7 — removeItem -/

/-- C7 counterexample: a user with no cart gets a 404 error from
`DELETE /api/cart/:productId`, not a no-op success, even though the
product is (vacuously) not present. -/
theorem removeFromCart_claim_counterexample :
    removeFromCart none 1 = .failure 404 "Cart not found" := rfl

/-- C7 amended: for a user with an existing cart, removing an absent
product answers success with the cart unchanged, and removing a present
product deletes exactly the lines carrying it (exactly one under the
one-line-per-product invariant) leaving all other lines unchanged; for a
user with no cart, the handler answers 404 `"Cart not found"`. -/
theorem removeFromCart_spec (cart? : Option Cart) (pid : Nat) :
    (cart? = none → removeFromCart cart? pid = .failure 404 "Cart not found") ∧
    (∀ c, cart? = some c → (∀ item ∈ c.items, item.product ≠ pid) →
      removeFromCart cart? pid = .success 200 c) ∧
    (∀ c pre line post, cart? = some c → c.items = pre ++ line :: post →
      line.product = pid →
      (∀ item ∈ pre, item.product ≠ pid) → (∀ item ∈ post, item.product ≠ pid) →
      removeFromCart cart? pid = .success 200 { c with items := pre ++ post }) := by
  refine ⟨?_, ?_, ?_⟩
  · rintro rfl; rfl
  · rintro ⟨cuser, citems⟩ rfl habsent
    have hfilter : citems.filter (fun item => item.product ≠ pid) = citems :=
      List.filter_eq_self.mpr (fun item hitem => by simp [habsent item hitem])
    show Resp.success 200
      (Cart.mk cuser (citems.filter (fun item => item.product ≠ pid)))
      = Resp.success 200 (Cart.mk cuser citems)
    rw [hfilter]
  · rintro ⟨cuser, citems⟩ pre line post rfl hsplit hline hpre hpost
    have hpre' : pre.filter (fun item => item.product ≠ pid) = pre :=
      List.filter_eq_self.mpr (fun item hitem => by simp [hpre item hitem])
    have hpost' : post.filter (fun item => item.product ≠ pid) = post :=
      List.filter_eq_self.mpr (fun item hitem => by simp [hpost item hitem])
    simp only at hsplit
    subst hsplit
    show Resp.success 200
      (Cart.mk cuser ((pre ++ line :: post).filter (fun item => item.product ≠ pid)))
      = Resp.success 200 (Cart.mk cuser (pre ++ post))
    rw [List.filter_append, hpre']
    have hdrop : (line :: post).filter (fun item => item.product ≠ pid) = post := by
      have hfalse : decide (line.product ≠ pid) = false := by simp [hline]
      rw [List.filter_cons]
      simp only [hfalse, Bool.false_eq_true, if_false]
      exact hpost'
    rw [hdrop]

/-- Witness for the amended C7 at concrete inputs: no cart → 404;
absent product → unchanged success; present product → that line removed. -/
theorem removeFromCart_spec_witness :
    removeFromCart none 7 = .failure 404 "Cart not found" ∧
    removeFromCart (some demoCart) 7 = .success 200 demoCart ∧
    removeFromCart (some demoCart) 2
      = .success 200 { demoCart with items := [demoCart.items.get ⟨0, by decide⟩] } := by
  refine ⟨(removeFromCart_spec none 7).1 rfl,
    (removeFromCart_spec (some demoCart) 7).2.1 demoCart rfl (by decide), ?_⟩
  have h := (removeFromCart_spec (some demoCart) 2).2.2 demoCart
    [demoCart.items.get ⟨0, by decide⟩] (demoCart.items.get ⟨1, by decide⟩) []
    rfl (by decide) (by decide) (by decide) (by decide)
  simpa using h

/-! ## C2 — rating is the mean of all review ratings -/

/-- Running a sequence of review submissions appends one review per
submission (so the rating column ends as the submitted ratings in order),
and — as long as at least one submission ran — the last step left
`numReviews` equal to the review count and `rating` equal to the reduce
over all ratings divided by the count. -/
theorem addReviewsSeq_ratings (subs : List (User × Rat)) (item item' : CatalogItem)
    (h : addReviewsSeq item subs = some item') :
    item'.reviews.map Review.rating
      = item.reviews.map Review.rating ++ subs.map Prod.snd ∧
    (subs ≠ [] →
      item'.numReviews = item'.reviews.length ∧
      item'.rating = (item'.reviews.map Review.rating).sum / (item'.reviews.length : Rat)) := by
  induction subs generalizing item with
  | nil =>
      simp only [addReviewsSeq, Option.some_inj] at h
      subst h
      exact ⟨by simp, fun hne => absurd rfl hne⟩
  | cons ur rest ih =>
      obtain ⟨u, r⟩ := ur
      simp only [addReviewsSeq] at h
      rcases Bool.eq_false_or_eq_true
          ((item.reviews.find? (fun rv => rv.user == u._id)).isSome) with hfind | hfind
      · have hstep : reviewHandlerBody (some item) (some u) r none = .alreadyReviewed := by
          simp [reviewHandlerBody, hfind]
        rw [hstep] at h
        simp at h
      · have hstep : reviewHandlerBody (some item) (some u) r none
            = .added (appendReview item u r none) := by
          simp [reviewHandlerBody, hfind]
        rw [hstep] at h
        obtain ⟨ih1, ih2⟩ := ih (appendReview item u r none) h
        constructor
        · rw [ih1]
          simp [appendReview]
        · intro _
          cases rest with
          | nil =>
              simp only [addReviewsSeq, Option.some_inj] at h
              subst h
              refine ⟨rfl, ?_⟩
              simp [appendReview, ratingReduce_eq_sum]
          | cons x xs => exact ih2 (by simp)

/-- C2: a successful review submission leaves `numReviews` equal to the
length of the review list and `rating` equal to the arithmetic mean of
all review ratings including the new one; consequently, starting from an
item with no reviews, after N successful submissions with ratings
r1..rN the item holds `numReviews = N` and `rating = mean(r1..rN)`. -/
theorem addReview_rating_mean :
    (∀ (item? : Option CatalogItem) (u : User) (rating : Rat) (comment : Option String)
        (item' : CatalogItem),
      reviewHandlerBody item? (some u) rating comment = .added item' →
      item'.numReviews = item'.reviews.length ∧
      item'.rating = (item'.reviews.map Review.rating).sum / (item'.reviews.length : Rat)) ∧
    (∀ (start : CatalogItem) (subs : List (User × Rat)) (item' : CatalogItem),
      start.reviews = [] → subs ≠ [] → addReviewsSeq start subs = some item' →
      item'.numReviews = subs.length ∧
      item'.rating = (subs.map Prod.snd).sum / (subs.length : Rat)) := by
  constructor
  · intro item? u rating comment item' h
    cases item? with
    | none => simp [reviewHandlerBody] at h
    | some item =>
        rcases Bool.eq_false_or_eq_true
            ((item.reviews.find? (fun rv => rv.user == u._id)).isSome) with hfind | hfind
        · have hstep : reviewHandlerBody (some item) (some u) rating comment
              = .alreadyReviewed := by
            simp [reviewHandlerBody, hfind]
          rw [hstep] at h
          cases h
        · have hstep : reviewHandlerBody (some item) (some u) rating comment
              = .added (appendReview item u rating comment) := by
            simp [reviewHandlerBody, hfind]
          rw [hstep] at h
          cases h
          exact ⟨rfl, by simp [appendReview, ratingReduce_eq_sum]⟩
  · intro start subs item' hempty hne h
    obtain ⟨h1, h2⟩ := addReviewsSeq_ratings subs start item' h
    obtain ⟨hnum, hrat⟩ := h2 hne
    have hlen : item'.reviews.length = subs.length := by
      have hml := congrArg List.length h1
      simpa [hempty] using hml
    refine ⟨by rw [hnum, hlen], ?_⟩
    rw [hrat, h1, hempty, hlen]
    simp

/-- A requester with no admin rights, used as a concrete reviewer. -/
def alice : User := { _id := 10, name := "alice", isAdmin := false }

def bob : User := { _id := 11, name := "bob", isAdmin := false }

/-- Two submissions with ratings 4 and 2 by distinct users. -/
def demoSubs : List (User × Rat) := [(alice, 4), (bob, 2)]

/-- The item the two demo submissions produce: two reviews, mean 3. -/
def demoReviewedItem : CatalogItem :=
  { reviews :=
      [{ name := "alice", rating := 4, comment := none, user := 10 },
       { name := "bob", rating := 2, comment := none, user := 11 }]
    numReviews := 2
    rating := 3 }

/-- Witness for C2: after ratings 4 and 2 on a fresh item,
`numReviews = 2` and `rating = (4+2)/2 = 3`. -/
theorem addReview_rating_mean_witness :
    demoReviewedItem.numReviews = demoSubs.length ∧
    demoReviewedItem.rating = (demoSubs.map Prod.snd).sum / (demoSubs.length : Rat) := by
  have hseq : addReviewsSeq { reviews := [], numReviews := 0, rating := 0 } demoSubs
      = some demoReviewedItem := by
    simp only [demoSubs, addReviewsSeq, reviewHandlerBody, appendReview, List.find?,
      alice, bob, demoReviewedItem]
    norm_num [ratingReduce]
  exact addReview_rating_mean.2 { reviews := [], numReviews := 0, rating := 0 }
    demoSubs demoReviewedItem rfl (by simp [demoSubs]) hseq

/-! ## C5 — a second review by the same user -/

/-- C5: when the item already carries a review owned by the requesting
user, the handler answers `AlreadyReviewed` and nothing is persisted: the
stored item is exactly the one that was there, so its review list length,
`rating` and `numReviews` are unchanged. -/
theorem addReview_alreadyReviewed (item : CatalogItem) (u : User) (rating : Rat)
    (comment : Option String) (h : ∃ r ∈ item.reviews, r.user = u._id) :
    reviewHandlerBody (some item) (some u) rating comment = .alreadyReviewed ∧
    reviewStoredAfter (some item) (some u) rating comment = some item := by
  have hfind : ((item.reviews).find? (fun rv => rv.user == u._id)).isSome := by
    obtain ⟨r, hr, hru⟩ := h
    exact List.find?_isSome.mpr ⟨r, hr, by simp [hru]⟩
  have h1 : reviewHandlerBody (some item) (some u) rating comment = .alreadyReviewed := by
    simp [reviewHandlerBody, hfind]
  exact ⟨h1, by simp [reviewStoredAfter, h1]⟩

/-- Witness for C5: alice already reviewed the demo item; her second
attempt is rejected and the stored item is unchanged. -/
theorem addReview_alreadyReviewed_witness :
    reviewHandlerBody (some demoReviewedItem) (some alice) 5 none = .alreadyReviewed ∧
    reviewStoredAfter (some demoReviewedItem) (some alice) 5 none = some demoReviewedItem := by
  exact addReview_alreadyReviewed demoReviewedItem alice 5 none
    ⟨{ name := "alice", rating := 4, comment := none, user := 10 },
      by simp [demoReviewedItem], by simp [alice]⟩

/-! ## C10 — the unauthenticated product review route -/

/-- C10: `POST /api/products/:id/reviews` is registered without `protect`;
on every request naming an existing product the handler dereferences the
absent `req.user`, answers 500, and stores nothing, so no review is ever
created through this route and the product's reviews, `rating` and
`numReviews` are unchanged. -/
theorem productReview_never_succeeds (item : CatalogItem) (rating : Rat)
    (comment : Option String) :
    productReviewEndpoint (some item) rating comment = .serverError ∧
    productReviewStoredAfter (some item) rating comment = some item ∧
    (∀ (item? : Option CatalogItem) (r : Rat) (c : Option String) (item' : CatalogItem),
      productReviewEndpoint item? r c ≠ .added item') := by
  refine ⟨rfl, rfl, ?_⟩
  intro item? r c item' hadd
  cases item? with
  | none => simp [productReviewEndpoint, reviewHandlerBody] at hadd
  | some it => simp [productReviewEndpoint, reviewHandlerBody] at hadd

/-- Witness for C10 on a concrete product. -/
theorem productReview_never_succeeds_witness :
    productReviewEndpoint (some demoReviewedItem) 5 none = .serverError ∧
    productReviewStoredAfter (some demoReviewedItem) 5 none = some demoReviewedItem := by
  exact ⟨(productReview_never_succeeds demoReviewedItem 5 none).1,
    (productReview_never_succeeds demoReviewedItem 5 none).2.1⟩

/-! ## C6 — admin gating -/

/-- A non-admin principal. -/
def mallory : User := { _id := 2, name := "mallory", isAdmin := false }

/-- C6 counterexample: a non-admin hitting the admin-chained deliver route
is rejected with 401 — not 403 Forbidden — and a non-admin hitting
`DELETE /api/accessories/:id` is not rejected at all: the deletion
executes and answers 200. -/
theorem admin_gate_claim_counterexample :
    deliverOrderEndpoint mallory (some baseOrder) 5
      = (.failure 401 "Not authorized as an admin", false) ∧
    deleteAccessoryEndpoint (some mallory) true
      = (.success 200 "Accessory removed", true) := by
  exact ⟨rfl, rfl⟩

/-- C6 amended: the operations wired through the `protect, admin` chain
(order deliver/status/list-all and the product, full-marine-setup and
category mutations) reject a principal with `isAdmin = false` with HTTP
401 `"Not authorized as an admin"` — not 403 — without executing the
underlying operation; the accessory mutation routes carry no
`protect`/`admin` middleware and execute for any requester. -/
theorem admin_gating_spec (u : User) (h : u.isAdmin = false) :
    (∀ order? now, deliverOrderEndpoint u order? now
      = (.failure 401 "Not authorized as an admin", false)) ∧
    (∀ order? status now, setOrderStatusEndpoint u order? status now
      = (.failure 401 "Not authorized as an admin", false)) ∧
    (∀ orders, getAllOrdersEndpoint u orders
      = (.failure 401 "Not authorized as an admin", false)) ∧
    (∀ found, deleteProductEndpoint u found
      = (.failure 401 "Not authorized as an admin", false)) ∧
    (∀ found, deleteFullMarineSetupEndpoint u found
      = (.failure 401 "Not authorized as an admin", false)) ∧
    (∀ found, deleteCategoryEndpoint u found
      = (.failure 401 "Not authorized as an admin", false)) ∧
    (∀ user? found, (deleteAccessoryEndpoint user? found).2 = true) ∧
    (∀ user? name price, (createAccessoryEndpoint user? name price).2 = true) := by
  have hg : adminGate (some u) = .reject 401 "Not authorized as an admin" := by
    simp [adminGate, h]
  refine ⟨?_, ?_, ?_, ?_, ?_, ?_, ?_, ?_⟩
  · intro order? now
    simp [deliverOrderEndpoint, adminGated, hg]
  · intro order? status now
    simp [setOrderStatusEndpoint, adminGated, hg]
  · intro orders
    simp [getAllOrdersEndpoint, adminGated, hg]
  · intro found
    simp [deleteProductEndpoint, adminGated, hg]
  · intro found
    simp [deleteFullMarineSetupEndpoint, adminGated, hg]
  · intro found
    simp [deleteCategoryEndpoint, adminGated, hg]
  · intro user? found
    cases found <;> rfl
  · intro user? name price
    rfl

/-- Witness for the amended C6 on concrete requests by `mallory`. -/
theorem admin_gating_spec_witness :
    deliverOrderEndpoint mallory (some baseOrder) 6
      = (.failure 401 "Not authorized as an admin", false) ∧
    deleteProductEndpoint mallory true
      = (.failure 401 "Not authorized as an admin", false) ∧
    (deleteAccessoryEndpoint (some mallory) false).2 = true := by
  have h := admin_gating_spec mallory rfl
  exact ⟨h.1 (some baseOrder) 6, h.2.2.2.1 true, h.2.2.2.2.2.2.1 (some mallory) false⟩

end Aquarium
